import Mathlib

/-!
Verification of the always-assert crate (src/lib.rs).

The crate exports two macros, `always!` and `never!`.  Expanded, the body of
`always!(cond, fmt, args...)` is:

    let cond = $cond;
    if cfg!(debug_assertions) || $crate::__FORCE {
        assert!(cond, $fmt $($arg)*);
    }
    if !cond {
        $crate::__log_error!($fmt $($arg)*);
    }
    cond

and `never!(cond, ...)` is `!always!(!cond, ...)`.  The one-argument form
`always!(cond)` delegates to the two-argument form with the template
"assertion failed: {}" applied to `stringify!(cond)`; via `never!`'s
delegation the inner `always!` stringifies `!(cond)`.

We embed the expansion shallowly.  Build-time cfg flags become a `Config`
record.  Caller expressions (the condition and the formatting of the message
arguments) are effectful in Rust, so they are modelled as explicit state
transformers `σ → σ × _`; the pure value-level claims use the specialisation
at `σ := Unit`.  `assert!` panicking and `log::error!` emitting a record
become an `Outcome` and a list of `Event`s.
-/

/-- Build configuration: `debug_assertions` is the rustc profile flag,
`force` and `log` are the two cargo features of the crate. -/
structure Config where
  debug_assertions : Bool
  force : Bool
  log : Bool
deriving DecidableEq, Repr

/-- Model of `pub const __FORCE: bool = cfg!(feature = "force");`. -/
def Config.FORCE (cfg : Config) : Bool := cfg.force

/-- The strict-mode test appearing in `always!`:
`cfg!(debug_assertions) || $crate::__FORCE`. -/
def Config.strict (cfg : Config) : Bool := cfg.debug_assertions || cfg.FORCE

/-- Observable side events of one invocation (other than termination):
an error-level log record carrying a message. -/
inductive Event where
  | logError (msg : String)
deriving DecidableEq, Repr

/-- How an invocation ends: `panic msg` models `assert!` terminating the
process with the formatted message, `ret v` a normal return of value `v`. -/
inductive Outcome where
  | panic (msg : String)
  | ret (value : Bool)
deriving DecidableEq, Repr

/-- Model of `__log_error!(fmt args...)`.  With the `log` feature the macro
is `log::error!`, which formats the message and emits an error record; without
it the macro expands to nothing at all, so the arguments are not evaluated. -/
def logError {σ : Type} (cfg : Config) (fmtArgs : σ → σ × String) (s : σ) :
    σ × List Event :=
  if cfg.log then
    let (s, m) := fmtArgs s
    (s, [Event.logError m])
  else
    (s, [])

/-- Model of `assert!(cond, fmt args...)`: when `cond` is false, format the
message (evaluating the arguments) and panic; otherwise do nothing. -/
def assertBang {σ : Type} (cond : Bool) (fmtArgs : σ → σ × String) (s : σ) :
    σ × Option String :=
  if !cond then
    let (s, m) := fmtArgs s
    (s, some m)
  else
    (s, none)

/-- Model of the two-argument arm of `always!`: evaluate the condition once,
run the `assert!` under the strict-mode cfg test, then (if still running and
the condition was false) run `__log_error!`, and return the condition. -/
def alwaysFmt {σ : Type} (cfg : Config) (condE : σ → σ × Bool)
    (fmtArgs : σ → σ × String) (s : σ) : σ × List Event × Outcome :=
  let (s, cond) := condE s
  if cfg.strict then
    match assertBang cond fmtArgs s with
    | (s, some m) => (s, [], Outcome.panic m)
    | (s, none) =>
      if !cond then
        let (s, evs) := logError cfg fmtArgs s
        (s, evs, Outcome.ret cond)
      else
        (s, [], Outcome.ret cond)
  else
    if !cond then
      let (s, evs) := logError cfg fmtArgs s
      (s, evs, Outcome.ret cond)
    else
      (s, [], Outcome.ret cond)

/-- Model of the one-argument arm of `always!`: delegate to the two-argument
arm with the default template "assertion failed: {}" interpolated with the
source text of the condition (pure: no caller-supplied arguments). -/
def alwaysDefault {σ : Type} (cfg : Config) (condE : σ → σ × Bool)
    (src : String) (s : σ) : σ × List Event × Outcome :=
  alwaysFmt cfg condE (fun s => (s, "assertion failed: " ++ src)) s

/-- Negation of a returned value, leaving a panic untouched: the `!` that
`never!` wraps around `always!`. -/
def Outcome.negRet : Outcome → Outcome
  | Outcome.panic m => Outcome.panic m
  | Outcome.ret v => Outcome.ret (!v)

/-- Model of the two-argument arm of `never!`:
`!always!(!cond, fmt args...)`. -/
def neverFmt {σ : Type} (cfg : Config) (condE : σ → σ × Bool)
    (fmtArgs : σ → σ × String) (s : σ) : σ × List Event × Outcome :=
  let (s, evs, o) :=
    alwaysFmt cfg (fun s => let (s, c) := condE s; (s, !c)) fmtArgs s
  (s, evs, o.negRet)

/-- Model of the one-argument arm of `never!`: `!always!(!cond)`, where the
inner one-argument `always!` stringifies the expression `!(cond)`. -/
def neverDefault {σ : Type} (cfg : Config) (condE : σ → σ × Bool)
    (src : String) (s : σ) : σ × List Event × Outcome :=
  let (s, evs, o) :=
    alwaysDefault cfg (fun s => let (s, c) := condE s; (s, !c))
      ("!(" ++ src ++ ")") s
  (s, evs, o.negRet)

/-- Pure specialisation of `always!` with an explicit already-formatted
message: the condition value and message carry no side effects. -/
def alwaysP (cfg : Config) (c : Bool) (msg : String) : List Event × Outcome :=
  (alwaysFmt cfg (fun s => (s, c)) (fun s => (s, msg)) ()).2

/-- Pure specialisation of `never!` with an explicit message. -/
def neverP (cfg : Config) (c : Bool) (msg : String) : List Event × Outcome :=
  (neverFmt cfg (fun s => (s, c)) (fun s => (s, msg)) ()).2

/-- Pure specialisation of the one-argument `always!`. -/
def alwaysD (cfg : Config) (c : Bool) (src : String) : List Event × Outcome :=
  (alwaysDefault cfg (fun s => (s, c)) src ()).2

/-- Pure specialisation of the one-argument `never!`. -/
def neverD (cfg : Config) (c : Bool) (src : String) : List Event × Outcome :=
  (neverDefault cfg (fun s => (s, c)) src ()).2

/-- Messages observable from one invocation: the panic diagnostic if the
invocation terminated, plus the content of every emitted log record. -/
def messages : List Event × Outcome → List String
  | (evs, Outcome.panic m) => m :: evs.map (fun e => match e with | Event.logError s => s)
  | (evs, Outcome.ret _) => evs.map (fun e => match e with | Event.logError s => s)

/-! Normal forms of the four entry points, used throughout the proofs. -/

theorem alwaysFmt_eq {σ : Type} (cfg : Config) (condE : σ → σ × Bool)
    (fmtArgs : σ → σ × String) (s : σ) :
    alwaysFmt cfg condE fmtArgs s =
      (if cfg.strict && !(condE s).2 then
        ((fmtArgs (condE s).1).1, [], Outcome.panic (fmtArgs (condE s).1).2)
      else if !(condE s).2 && cfg.log then
        ((fmtArgs (condE s).1).1, [Event.logError (fmtArgs (condE s).1).2],
          Outcome.ret (condE s).2)
      else ((condE s).1, [], Outcome.ret (condE s).2)) := by
  rcases hc : condE s with ⟨s1, c⟩
  rcases hf : fmtArgs s1 with ⟨s2, m⟩
  cases hs : cfg.strict <;> cases c <;> cases hl : cfg.log <;>
    simp [alwaysFmt, assertBang, logError, hc, hf, hs, hl]

theorem alwaysP_eq (cfg : Config) (c : Bool) (msg : String) :
    alwaysP cfg c msg =
      if cfg.strict && !c then ([], Outcome.panic msg)
      else if !c && cfg.log then ([Event.logError msg], Outcome.ret c)
      else ([], Outcome.ret c) := by
  rcases cfg with ⟨d, fo, lg⟩
  cases d <;> cases fo <;> cases lg <;> cases c <;> rfl

theorem neverP_eq (cfg : Config) (c : Bool) (msg : String) :
    neverP cfg c msg =
      if cfg.strict && c then ([], Outcome.panic msg)
      else if c && cfg.log then ([Event.logError msg], Outcome.ret c)
      else ([], Outcome.ret c) := by
  rcases cfg with ⟨d, fo, lg⟩
  cases d <;> cases fo <;> cases lg <;> cases c <;> rfl

theorem alwaysD_eq (cfg : Config) (c : Bool) (src : String) :
    alwaysD cfg c src = alwaysP cfg c ("assertion failed: " ++ src) := by
  rcases cfg with ⟨d, fo, lg⟩
  cases d <;> cases fo <;> cases lg <;> cases c <;> rfl

theorem neverD_eq (cfg : Config) (c : Bool) (src : String) :
    neverD cfg c src = neverP cfg c ("assertion failed: !(" ++ src ++ ")") := by
  rcases cfg with ⟨d, fo, lg⟩
  cases d <;> cases fo <;> cases lg <;> cases c <;> rfl

/-- C1: when strict mode is off (debug_assertions disabled and the force
feature not enabled), every call to always! and never! returns normally — the
panic branch is unreachable — for every condition value, every logging
configuration and every message or condition source text. -/
theorem lenient_never_terminates (cfg : Config) (c : Bool) (msg src : String)
    (h : cfg.strict = false) :
    (alwaysP cfg c msg).2 = Outcome.ret c ∧
    (neverP cfg c msg).2 = Outcome.ret c ∧
    (alwaysD cfg c src).2 = Outcome.ret c ∧
    (neverD cfg c src).2 = Outcome.ret c := by
  rcases cfg with ⟨d, fo, lg⟩
  simp [Config.strict, Config.FORCE] at h
  obtain ⟨hd, hf⟩ := h
  subst hd; subst hf
  cases lg <;> cases c <;> exact ⟨rfl, rfl, rfl, rfl⟩

theorem lenient_never_terminates_witness :
    (alwaysP ⟨false, false, true⟩ false "m").2 = Outcome.ret false ∧
    (neverP ⟨false, false, true⟩ true "n").2 = Outcome.ret true :=
  ⟨(lenient_never_terminates ⟨false, false, true⟩ false "m" "s" (by decide)).1,
   (lenient_never_terminates ⟨false, false, true⟩ true "n" "s" (by decide)).2.1⟩

/-- C2: whenever a call returns (does not terminate the process), always!(c)
returns c and never!(c) returns c, with or without an explicit message: both
are identity-returning probes on the actual condition value. -/
theorem returns_actual_condition (cfg : Config) (c v : Bool) (msg src : String) :
    ((alwaysP cfg c msg).2 = Outcome.ret v → v = c) ∧
    ((neverP cfg c msg).2 = Outcome.ret v → v = c) ∧
    ((alwaysD cfg c src).2 = Outcome.ret v → v = c) ∧
    ((neverD cfg c src).2 = Outcome.ret v → v = c) := by
  rcases cfg with ⟨d, fo, lg⟩
  cases d <;> cases fo <;> cases lg <;> cases c <;> cases v <;>
    simp [alwaysP_eq, neverP_eq, alwaysD_eq, neverD_eq, Config.strict, Config.FORCE]

theorem returns_actual_condition_witness :
    (alwaysP ⟨false, false, false⟩ false "m").2 = Outcome.ret false ∧ false = false :=
  ⟨by decide,
   (returns_actual_condition ⟨false, false, false⟩ false false "m" "s").1 (by decide)⟩

/-- C3: strict mode holds exactly when debug_assertions or the force feature
is enabled, and in strict mode always!(false, ...) terminates with the
formatted message (the default template when none is given) while
never!(true, ...) terminates with the formatted message symmetrically. -/
theorem strict_mode_terminates (cfg : Config) (msg src : String)
    (h : cfg.strict = true) :
    cfg.strict = (cfg.debug_assertions || cfg.force) ∧
    (alwaysP cfg false msg).2 = Outcome.panic msg ∧
    (alwaysD cfg false src).2 = Outcome.panic ("assertion failed: " ++ src) ∧
    (neverP cfg true msg).2 = Outcome.panic msg ∧
    (neverD cfg true src).2 = Outcome.panic ("assertion failed: !(" ++ src ++ ")") := by
  refine ⟨rfl, ?_, ?_, ?_, ?_⟩ <;>
    simp [alwaysP_eq, neverP_eq, alwaysD_eq, neverD_eq, h]

theorem strict_mode_terminates_witness :
    (alwaysD ⟨true, false, false⟩ false "2 + 2 == 5").2 =
      Outcome.panic ("assertion failed: " ++ "2 + 2 == 5") ∧
    (neverD ⟨false, true, false⟩ true "2 + 2 == 4").2 =
      Outcome.panic ("assertion failed: !(" ++ "2 + 2 == 4" ++ ")") :=
  ⟨(strict_mode_terminates ⟨true, false, false⟩ "m" "2 + 2 == 5" (by decide)).2.2.1,
   (strict_mode_terminates ⟨false, true, false⟩ "m" "2 + 2 == 4" (by decide)).2.2.2.2⟩

/-- C4: never!(c) equals !always!(!c) — same events, outcome the negation of
the inner always!'s returned value — and the escalation conditions are dual:
never! panics iff strict mode and c true, always! panics iff strict mode and
c false; never! logs iff lenient mode, logging on and c true, always! logs
iff lenient mode, logging on and c false. -/
theorem never_is_dual_of_always (cfg : Config) (c : Bool) (msg : String) :
    neverP cfg c msg = ((alwaysP cfg (!c) msg).1, (alwaysP cfg (!c) msg).2.negRet) ∧
    ((∃ m, (neverP cfg c msg).2 = Outcome.panic m) ↔ cfg.strict = true ∧ c = true) ∧
    ((∃ m, (alwaysP cfg c msg).2 = Outcome.panic m) ↔ cfg.strict = true ∧ c = false) ∧
    ((neverP cfg c msg).1 ≠ [] ↔ cfg.strict = false ∧ cfg.log = true ∧ c = true) ∧
    ((alwaysP cfg c msg).1 ≠ [] ↔ cfg.strict = false ∧ cfg.log = true ∧ c = false) := by
  rcases cfg with ⟨d, fo, lg⟩
  cases d <;> cases fo <;> cases lg <;> cases c <;>
    simp [alwaysP_eq, neverP_eq, Config.strict, Config.FORCE, Outcome.negRet]

/-- C5: in lenient mode with logging enabled an error-level record is emitted
iff the condition has its unexpected polarity (false for always!, true for
never!) and its content is exactly the formatted message; in lenient mode
with logging disabled a call has no observable effect beyond the returned
boolean. -/
theorem lenient_logging (cfg : Config) (c : Bool) (msg : String)
    (h : cfg.strict = false) :
    (cfg.log = true →
      (alwaysP cfg c msg).1 = (if c then [] else [Event.logError msg]) ∧
      (neverP cfg c msg).1 = (if c then [Event.logError msg] else [])) ∧
    (cfg.log = false →
      alwaysP cfg c msg = ([], Outcome.ret c) ∧
      neverP cfg c msg = ([], Outcome.ret c)) := by
  rcases cfg with ⟨d, fo, lg⟩
  simp [Config.strict, Config.FORCE] at h
  obtain ⟨hd, hf⟩ := h
  subst hd; subst hf
  cases lg <;> cases c <;>
    simp [alwaysP_eq, neverP_eq, Config.strict, Config.FORCE]

theorem lenient_logging_witness :
    (alwaysP ⟨false, false, true⟩ false "m").1 =
      (if false then [] else [Event.logError "m"]) ∧
    neverP ⟨false, false, false⟩ true "m" = ([], Outcome.ret true) :=
  ⟨((lenient_logging ⟨false, false, true⟩ false "m" (by decide)).1 (by decide)).1,
   ((lenient_logging ⟨false, false, false⟩ true "m" (by decide)).2 (by decide)).2⟩

/-- C6: with no explicit message, every diagnostic produced (panic message or
log record) by always!(c) is "assertion failed: " followed by the source text
of the condition, and by never!(c) is "assertion failed: !(" followed by the
source text and ")". -/
theorem default_message_text (cfg : Config) (c : Bool) (src m : String) :
    (m ∈ messages (alwaysD cfg c src) → m = "assertion failed: " ++ src) ∧
    (m ∈ messages (neverD cfg c src) → m = "assertion failed: !(" ++ src ++ ")") := by
  rcases cfg with ⟨d, fo, lg⟩
  cases d <;> cases fo <;> cases lg <;> cases c <;>
    simp [alwaysD_eq, neverD_eq, alwaysP_eq, neverP_eq, messages,
      Config.strict, Config.FORCE]

theorem default_message_text_witness :
    "assertion failed: x" = "assertion failed: " ++ "x" :=
  (default_message_text ⟨true, false, false⟩ false "x" "assertion failed: x").1
    (by decide)

/-- C7: the condition expression is evaluated exactly once per invocation, in
every build configuration, with or without an explicit message, including
never!'s delegation through always!: instrumenting the condition to bump the
first counter of the state (and the format arguments the second), the first
counter always ends exactly one higher. -/
theorem condition_evaluated_once (cfg : Config) (c : ℕ × ℕ → Bool)
    (f : ℕ × ℕ → String) (src : String) (p : ℕ × ℕ) :
    (alwaysFmt cfg (fun q => ((q.1 + 1, q.2), c q))
      (fun q => ((q.1, q.2 + 1), f q)) p).1.1 = p.1 + 1 ∧
    (neverFmt cfg (fun q => ((q.1 + 1, q.2), c q))
      (fun q => ((q.1, q.2 + 1), f q)) p).1.1 = p.1 + 1 ∧
    (alwaysDefault cfg (fun q => ((q.1 + 1, q.2), c q)) src p).1.1 = p.1 + 1 ∧
    (neverDefault cfg (fun q => ((q.1 + 1, q.2), c q)) src p).1.1 = p.1 + 1 := by
  rcases cfg with ⟨d, fo, lg⟩
  cases d <;> cases fo <;> cases lg <;> cases hc : c p <;>
    simp [alwaysFmt, neverFmt, alwaysDefault, neverDefault, assertBang, logError,
      Config.strict, Config.FORCE, hc]

/-- C8: when the condition has its expected polarity (true for always!, false
for never!) the message template is not formatted and its arguments are not
evaluated: for arbitrary effectful format arguments, the final state is
exactly the state left by evaluating the condition alone, nothing is logged
and the call returns normally. -/
theorem fmt_args_only_on_failure {σ : Type} (cfg : Config)
    (condE : σ → σ × Bool) (fmtArgs : σ → σ × String) (src : String) (s : σ) :
    ((condE s).2 = true →
      alwaysFmt cfg condE fmtArgs s = ((condE s).1, [], Outcome.ret true) ∧
      alwaysDefault cfg condE src s = ((condE s).1, [], Outcome.ret true)) ∧
    ((condE s).2 = false →
      neverFmt cfg condE fmtArgs s = ((condE s).1, [], Outcome.ret false) ∧
      neverDefault cfg condE src s = ((condE s).1, [], Outcome.ret false)) := by
  rcases hc : condE s with ⟨s1, b⟩
  cases hs : cfg.strict <;> cases hl : cfg.log <;> cases b <;>
    simp [alwaysFmt, neverFmt, alwaysDefault, neverDefault, assertBang, logError,
      Outcome.negRet, hc, hs, hl]

theorem fmt_args_only_on_failure_witness :
    alwaysFmt ⟨true, false, true⟩ (fun n : ℕ => (n, true))
      (fun n => (n + 1, "m")) 0 = (0, [], Outcome.ret true) :=
  ((fmt_args_only_on_failure ⟨true, false, true⟩ (fun n => (n, true))
      (fun n => (n + 1, "m")) "s" 0).1 rfl).1

/-- C9: with an explicit message, every diagnostic produced by never! (the
panic message on termination and the content of any log record) is exactly
the formatted explicit template: the polarity flip adds no negation or
"!(...)" wrapper to a caller-supplied message. -/
theorem never_explicit_message_unchanged (cfg : Config) (c : Bool)
    (msg m : String) (h : m ∈ messages (neverP cfg c msg)) : m = msg := by
  rcases cfg with ⟨d, fo, lg⟩
  cases d <;> cases fo <;> cases lg <;> cases c <;>
    simp [neverP_eq, messages, Config.strict, Config.FORCE] at h <;> exact h

theorem never_explicit_message_unchanged_witness : "custom 92" = "custom 92" :=
  never_explicit_message_unchanged ⟨true, false, false⟩ true "custom 92"
    "custom 92" (by decide)

/-- C10: the outcome is a deterministic function of the two build flags, the
condition value and the formatted message: two invocations whose
configurations agree on strict mode and on logging produce identical events,
identical termination decisions and identical return values, for both arms
and both call shapes. -/
theorem outcome_depends_only_on_flags (cfg1 cfg2 : Config) (c : Bool)
    (msg src : String) (hs : cfg1.strict = cfg2.strict)
    (hl : cfg1.log = cfg2.log) :
    alwaysP cfg1 c msg = alwaysP cfg2 c msg ∧
    neverP cfg1 c msg = neverP cfg2 c msg ∧
    alwaysD cfg1 c src = alwaysD cfg2 c src ∧
    neverD cfg1 c src = neverD cfg2 c src := by
  refine ⟨?_, ?_, ?_, ?_⟩ <;>
    simp [alwaysP_eq, neverP_eq, alwaysD_eq, neverD_eq, hs, hl]

theorem outcome_depends_only_on_flags_witness :
    alwaysP ⟨true, false, false⟩ false "m" = alwaysP ⟨false, true, false⟩ false "m" :=
  (outcome_depends_only_on_flags ⟨true, false, false⟩ ⟨false, true, false⟩ false
    "m" "s" (by decide) (by decide)).1
